import Mathlib

/-!
# Verification of `custom_components/ble_led/interactors.py`

Shallow embedding of the BLE LED interactor module: the command encoder
constants of `RGBWInteractor`, the byte packing `_pack`, the retrying
synchronous writer `GATTToolRGBWInteractor._write`, the persistent facade
`BtlewrapRGBWInteractor._write`, and the connection worker
`BtlewrapWorker` (`run` loop iteration and `write` retry loop).

The Bluetooth backend is modelled as a function `Nat → Bool` giving, for
each zero-based attempt index of one `write` call, whether the whole
connect/optional-write/release cycle succeeds (`true`) or raises
`BluetoothBackendException` (`false`).  The external `gatttool` process is
modelled the same way (exit status per invocation).  Python's unbound
loop-variable `NameError` (reachable in `BtlewrapWorker.write` when
`attempts = 0`) is modelled with `Except`.
-/

set_option autoImplicit false

namespace BleLed

/-! ### RGBWInteractor: encoder constants (interactors.py lines 19-45) -/

/-- `RGBWInteractor.control_handle = 0x0007`. -/
def control_handle : Nat := 0x0007

/-- `RGBWInteractor.rgb_offsets = [5*8, 4*8, 3*8]`. -/
def rgb_offsets : List Nat := [5 * 8, 4 * 8, 3 * 8]

/-- `RGBWInteractor.rgb_base = 0x5600000000f0aa`. -/
def rgb_base : Nat := 0x5600000000f0aa

/-- `RGBWInteractor.white_offset = 2*8`. -/
def white_offset : Nat := 2 * 8

/-- `RGBWInteractor.white_base = 0x56000000000faa`. -/
def white_base : Nat := 0x56000000000faa

/-- Value passed to `_write` by `set_on`. -/
def set_on_value : Nat := 0xcc2333

/-- Value passed to `_write` by `set_off`. -/
def set_off_value : Nat := 0xcc2433

/-- Value passed to `_write` by `set_color(*values)`:
`rgb_base + sum(v << o for v, o in zip(values, rgb_offsets))`. -/
def set_color_value (values : List Nat) : Nat :=
  rgb_base + ((values.zip rgb_offsets).map fun vo => vo.1 <<< vo.2).sum

/-- Value passed to `_write` by `set_white(value)`:
`white_base + (value << white_offset)`. -/
def set_white_value (value : Nat) : Nat :=
  white_base + (value <<< white_offset)

/-! ### BtlewrapRGBWInteractor._pack (lines 118-120) -/

/-- Python `int.bit_length()`: number of bits needed to represent `n`,
`0` for `n = 0`. -/
def bit_length (n : Nat) : Nat := if n = 0 then 0 else Nat.log2 n + 1

/-- Python `value.to_bytes(num_bytes, byteorder='big')`: the `n`-byte
big-endian representation (most significant byte first). -/
def toBytesBE : Nat → Nat → List Nat
  | 0, _ => []
  | n + 1, v => toBytesBE n (v / 256) ++ [v % 256]

/-- `BtlewrapRGBWInteractor._pack`:
`value.to_bytes(math.ceil(value.bit_length() / 8), byteorder='big')`. -/
def _pack (value : Nat) : List Nat :=
  toBytesBE ((bit_length value + 7) / 8) value

/-! ### BtlewrapWorker (lines 63-108) -/

/-- Counters and configuration of a `BtlewrapWorker` (lines 70-80). -/
structure BtlewrapWorker where
  address : String
  keepalive_interval : Nat
  attempts : Nat
  failure_count : Nat
  success_count : Nat
  loop_count : Nat
  empty_count : Nat
  deriving Repr, DecidableEq

/-- One iteration of the retry loop of `BtlewrapWorker.write`:
whether the connect/write/release cycle succeeded, and which
`write_handle(handle, payload)` calls it performed. -/
structure Attempt where
  ok : Bool
  written : List (Nat × List Nat)
  deriving Repr, DecidableEq

/-- Result of the `for i in range(self.attempts)` loop of
`BtlewrapWorker.write` (lines 93-106): final value of the loop variable
`i` (`none` when the body never ran, so `i` stays unbound), the trace of
attempts, and the increments to the success/failure counters. -/
structure LoopOut where
  lastI : Option Nat
  trace : List Attempt
  succ : Nat
  fail : Nat
  deriving Repr, DecidableEq

/-- The retry loop of `BtlewrapWorker.write`, iterating the index `i`
with `rem` iterations remaining.  A successful cycle writes the event (if
any) via `write_handle`, increments the success counter and breaks; a
failed cycle (a `BluetoothBackendException`) increments the failure
counter and continues. -/
def writeLoop (backend : Nat → Bool) (event : Option (Nat × List Nat)) :
    Nat → Nat → LoopOut
  | _, 0 => { lastI := none, trace := [], succ := 0, fail := 0 }
  | i, rem + 1 =>
    if backend i then
      { lastI := some i
        trace := [{ ok := true, written := event.toList }]
        succ := 1
        fail := 0 }
    else
      let rest := writeLoop backend event (i + 1) rem
      { lastI := some (rest.lastI.getD i)
        trace := { ok := false, written := [] } :: rest.trace
        succ := rest.succ
        fail := rest.fail + 1 }

/-- Outcome of one call to `BtlewrapWorker.write`: the worker with
updated counters, the trace of connection attempts, and the warning
logged by line 108 (`address` and reported attempt count `i + 1`), if
any. -/
structure WriteOutcome where
  worker : BtlewrapWorker
  trace : List Attempt
  warning : Option (String × Nat)
  deriving Repr, DecidableEq

/-- `BtlewrapWorker.write(event)` (lines 92-108).  After the loop, line
107 reads the loop variable `i`; when the loop ran zero iterations `i`
is unbound and Python raises `NameError`, modelled as `Except.error`. -/
def BtlewrapWorker.write (w : BtlewrapWorker) (backend : Nat → Bool)
    (event : Option (Nat × List Nat)) : Except String WriteOutcome :=
  let out := writeLoop backend event 0 w.attempts
  match out.lastI with
  | none => Except.error "NameError: name i is not defined"
  | some i =>
    Except.ok
      { worker := { w with
          success_count := w.success_count + out.succ
          failure_count := w.failure_count + out.fail }
        trace := out.trace
        warning := if i > 10 then some (w.address, i + 1) else none }

/-- One iteration of the `while True` loop of `BtlewrapWorker.run`
(lines 82-90): increment `loop_count`; `got = some cmd` models
`queue.get` returning a command, `got = none` models the
`queue.Empty` timeout, which increments `empty_count` and sets
`event = None`; then `self.write(event)`. -/
def BtlewrapWorker.runIteration (w : BtlewrapWorker) (backend : Nat → Bool)
    (got : Option (Nat × List Nat)) : Except String WriteOutcome :=
  let w1 := { w with loop_count := w.loop_count + 1 }
  match got with
  | none =>
    BtlewrapWorker.write { w1 with empty_count := w1.empty_count + 1 } backend none
  | some cmd => BtlewrapWorker.write w1 backend (some cmd)

/-! ### BtlewrapRGBWInteractor._write (lines 122-127) -/

/-- Effect of one call to `BtlewrapRGBWInteractor._write`: whether line
124 logged the dead-worker error, and the inbox after the
`queue.put` of line 127. -/
structure SubmitResult where
  loggedError : Bool
  inbox : List (Nat × List Nat)
  deriving Repr, DecidableEq

/-- `BtlewrapRGBWInteractor._write(value)`: log an error iff the worker
is not alive, then unconditionally enqueue
`(control_handle, _pack value)`. -/
def BtlewrapRGBWInteractor_write (workerAlive : Bool)
    (inbox : List (Nat × List Nat)) (value : Nat) : SubmitResult :=
  { loggedError := !workerAlive
    inbox := inbox ++ [(control_handle, _pack value)] }

/-! ### GATTToolRGBWInteractor._write (lines 51-60) -/

/-- The `for n in range(5)` loop of `GATTToolRGBWInteractor._write`:
`tool n` is whether the `n`-th `subprocess.run` exits zero.  Returns
(number of invocations made, number of failures logged, whether some
invocation succeeded).  A success breaks the loop; a
`CalledProcessError` is logged and the loop continues. -/
def gatttoolLoop (tool : Nat → Bool) : Nat → Nat → Nat × Nat × Bool
  | _, 0 => (0, 0, false)
  | n, fuel + 1 =>
    if tool n then (1, 0, true)
    else
      let r := gatttoolLoop tool (n + 1) fuel
      (r.1 + 1, r.2.1 + 1, r.2.2)

/-- `GATTToolRGBWInteractor._write(value)`: up to 5 invocations of the
external tool. -/
def GATTToolRGBWInteractor_write (tool : Nat → Bool) : Nat × Nat × Bool :=
  gatttoolLoop tool 0 5

end BleLed

namespace BleLed

/-! ## Helper lemmas about the retry loop -/

/-- The retry loop performs at least one attempt when `0 < rem`. -/
lemma writeLoop_trace_pos (backend : Nat → Bool) (event : Option (Nat × List Nat))
    (rem j : Nat) (h : 0 < rem) :
    0 < (writeLoop backend event j rem).trace.length := by
  match rem with
  | r + 1 =>
    rw [writeLoop]
    split <;> simp

/-- The final value of the loop variable `i`: unbound when the loop runs
zero iterations, else the zero-based index of the last attempt,
`j + (number of attempts) - 1`. -/
lemma writeLoop_lastI (backend : Nat → Bool) (event : Option (Nat × List Nat)) :
    ∀ rem j, (writeLoop backend event j rem).lastI =
      if rem = 0 then none
      else some (j + (writeLoop backend event j rem).trace.length - 1) := by
  intro rem
  induction rem with
  | zero => intro j; rfl
  | succ r ih =>
    intro j
    rw [writeLoop]
    split
    · simp
    · have hr := ih (j + 1)
      rw [if_neg (by omega : ¬r + 1 = 0)]
      by_cases h0 : r = 0
      · subst h0
        simp [writeLoop]
      · have hpos := writeLoop_trace_pos backend event r (j + 1) (by omega)
        simp only [if_neg h0] at hr
        simp only [hr, Option.getD_some, List.length_cons, Option.some.injEq]
        omega

/-- Unfolding `BtlewrapWorker.write` when the loop variable ends bound to
`i`. -/
lemma write_eq_some (w : BtlewrapWorker) (backend : Nat → Bool)
    (event : Option (Nat × List Nat)) (i : Nat)
    (hL : (writeLoop backend event 0 w.attempts).lastI = some i) :
    w.write backend event = Except.ok
      { worker := { w with
          success_count := w.success_count + (writeLoop backend event 0 w.attempts).succ
          failure_count := w.failure_count + (writeLoop backend event 0 w.attempts).fail }
        trace := (writeLoop backend event 0 w.attempts).trace
        warning := if i > 10 then some (w.address, i + 1) else none } := by
  simp only [BtlewrapWorker.write, hL]

/-- Any successful return of `BtlewrapWorker.write` came from a positive
attempt budget, and its warning field is governed by the number of
attempts consumed: line 107 checks `i > 10` where `i + 1` attempts were
consumed. -/
lemma write_ok_iff (w : BtlewrapWorker) (backend : Nat → Bool)
    (event : Option (Nat × List Nat)) (out : WriteOutcome)
    (h : w.write backend event = Except.ok out) :
    0 < w.attempts ∧ 0 < out.trace.length ∧
    out.trace = (writeLoop backend event 0 w.attempts).trace ∧
    out.warning = (if out.trace.length - 1 > 10
      then some (w.address, out.trace.length) else none) := by
  cases hL : (writeLoop backend event 0 w.attempts).lastI with
  | none =>
    simp [BtlewrapWorker.write, hL] at h
  | some i =>
    have hiff := writeLoop_lastI backend event w.attempts 0
    rw [hL] at hiff
    by_cases ha : w.attempts = 0
    · rw [if_pos ha] at hiff; cases hiff
    · rw [if_neg ha] at hiff
      simp only [Option.some.injEq, Nat.zero_add] at hiff
      have hpos := writeLoop_trace_pos backend event w.attempts 0 (by omega)
      rw [write_eq_some w backend event i hL] at h
      simp only [Except.ok.injEq] at h
      subst h
      subst hiff
      refine ⟨by omega, hpos, rfl, ?_⟩
      dsimp only
      by_cases hgt : (writeLoop backend event 0 w.attempts).trace.length - 1 > 10
      · rw [if_pos hgt, if_pos hgt]
        exact congrArg some (Prod.ext rfl (by omega))
      · rw [if_neg hgt, if_neg hgt]

/-! ## The claims -/

/-- Claim C1: with `attempts = 3` and a backend whose connect/write cycle
fails on the first two attempts and succeeds on the third, one call to
`BtlewrapWorker.write` applies the command exactly once (the third cycle
performs the single `write_handle`), increments `success_count` by 1,
increments `failure_count` by 2, and performs no attempt after the
success (the trace is exactly two failed cycles then the successful
one). -/
theorem C1_two_failures_then_success (w : BtlewrapWorker) (backend : Nat → Bool)
    (cmd : Nat × List Nat) (ha : w.attempts = 3)
    (h0 : backend 0 = false) (h1 : backend 1 = false) (h2 : backend 2 = true) :
    w.write backend (some cmd) = Except.ok
      { worker := { w with
          success_count := w.success_count + 1
          failure_count := w.failure_count + 2 }
        trace := [⟨false, []⟩, ⟨false, []⟩, ⟨true, [cmd]⟩]
        warning := none } := by
  simp [BtlewrapWorker.write, writeLoop, ha, h0, h1, h2]

/-- Witness for C1 at a concrete worker, backend and command. -/
theorem C1_witness : ∃ w : BtlewrapWorker, w.attempts = 3 ∧
    w.write (fun n => n == 2) (some (7, [1])) = Except.ok
      { worker := { w with success_count := w.success_count + 1,
                           failure_count := w.failure_count + 2 }
        trace := [⟨false, []⟩, ⟨false, []⟩, ⟨true, [(7, [1])]⟩]
        warning := none } :=
  ⟨⟨"AA", 2, 3, 0, 0, 0, 0⟩, rfl, C1_two_failures_then_success _ _ _ rfl rfl rfl rfl⟩

/-- Claim C2: with `attempts = 3` and a backend failing every cycle with
`BluetoothBackendException`, one call to `BtlewrapWorker.write` makes
exactly 3 attempts, returns normally (the exception is caught, none
escapes), leaves `success_count` unchanged, increments `failure_count`
by 3, and never applies the item (no cycle performs a `write_handle`;
`write` touches no queue, so nothing is re-queued). -/
theorem C2_all_attempts_fail (w : BtlewrapWorker) (backend : Nat → Bool)
    (cmd : Nat × List Nat) (ha : w.attempts = 3)
    (hf : ∀ n, backend n = false) :
    w.write backend (some cmd) = Except.ok
      { worker := { w with failure_count := w.failure_count + 3 }
        trace := [⟨false, []⟩, ⟨false, []⟩, ⟨false, []⟩]
        warning := none } := by
  simp [BtlewrapWorker.write, writeLoop, ha, hf]

/-- Witness for C2 at a concrete worker and always-failing backend. -/
theorem C2_witness :
    BtlewrapWorker.write ⟨"AA", 2, 3, 0, 0, 0, 0⟩ (fun _ => false) (some (7, [1])) =
      Except.ok { worker := ⟨"AA", 2, 3, 3, 0, 0, 0⟩
                  trace := [⟨false, []⟩, ⟨false, []⟩, ⟨false, []⟩]
                  warning := none } :=
  C2_all_attempts_fail ⟨"AA", 2, 3, 0, 0, 0, 0⟩ (fun _ => false) (7, [1]) rfl fun _ => rfl

/-- Claim C3: in one iteration of the `run` loop (first connection
attempt succeeding), a timed-out wait (`queue.Empty`) increments
`empty_count`, increments `loop_count`, and performs one full
connect/release cycle writing nothing; a received command is written
to that command's handle in the same kind of cycle, with `empty_count`
untouched. -/
theorem C3_keepalive_and_command_cycle (w : BtlewrapWorker) (backend : Nat → Bool)
    (cmd : Nat × List Nat) (hb : backend 0 = true) (ha : 1 ≤ w.attempts) :
    (∃ out, w.runIteration backend none = Except.ok out ∧
      out.worker.empty_count = w.empty_count + 1 ∧
      out.worker.loop_count = w.loop_count + 1 ∧
      out.trace = [{ ok := true, written := [] }]) ∧
    (∃ out, w.runIteration backend (some cmd) = Except.ok out ∧
      out.worker.empty_count = w.empty_count ∧
      out.worker.loop_count = w.loop_count + 1 ∧
      out.trace = [{ ok := true, written := [cmd] }]) := by
  obtain ⟨m, hm⟩ : ∃ m, w.attempts = m + 1 := ⟨w.attempts - 1, by omega⟩
  have hk : w.runIteration backend none = Except.ok
      { worker := { w with loop_count := w.loop_count + 1
                           empty_count := w.empty_count + 1
                           success_count := w.success_count + 1 }
        trace := [⟨true, []⟩], warning := none } := by
    simp [BtlewrapWorker.runIteration, BtlewrapWorker.write, writeLoop, hm, hb]
  have hc : w.runIteration backend (some cmd) = Except.ok
      { worker := { w with loop_count := w.loop_count + 1
                           success_count := w.success_count + 1 }
        trace := [⟨true, [cmd]⟩], warning := none } := by
    simp [BtlewrapWorker.runIteration, BtlewrapWorker.write, writeLoop, hm, hb]
  exact ⟨⟨_, hk, rfl, rfl, rfl⟩, ⟨_, hc, rfl, rfl, rfl⟩⟩

/-- Witness for C3: a keepalive iteration at a concrete worker. -/
theorem C3_witness : (1 : Nat) ≤ 3 ∧
    ∃ out, BtlewrapWorker.runIteration ⟨"AA", 2, 3, 0, 0, 0, 0⟩ (fun _ => true) none =
        Except.ok out ∧ out.trace = [{ ok := true, written := [] }] :=
  ⟨by decide, ((C3_keepalive_and_command_cycle ⟨"AA", 2, 3, 0, 0, 0, 0⟩ (fun _ => true)
      (7, [1]) rfl (by decide)).1).imp fun out h => ⟨h.1, h.2.2.2⟩⟩

/-- Counterexample to claim C4 as stated: with `attempts = 11` and a
backend succeeding on the 11th cycle, the item consumes exactly 11
attempts, yet line 107's check `i > 10` (with `i = 10`) is false and no
warning is logged — the claim says an item consuming exactly 11 attempts
triggers the warning. -/
theorem C4_counterexample :
    ∃ out,
      BtlewrapWorker.write
        { address := "AA", keepalive_interval := 2, attempts := 11,
          failure_count := 0, success_count := 0, loop_count := 0, empty_count := 0 }
        (fun n => n == 10) (some (7, [1])) = Except.ok out ∧
      out.trace.length = 11 ∧ out.warning = none := by
  refine ⟨_, rfl, ?_, ?_⟩ <;> rfl

/-- Claim C4 as amended: for every successful call to
`BtlewrapWorker.write`, a warning is logged iff the number of attempts
consumed exceeds 11 (the code checks `i > 10` on the zero-based final
loop index, i.e. consumed = `i + 1` > 11), and any logged warning names
the worker's address and an attempt count equal to the number of
attempts actually consumed. -/
theorem C4_warning_threshold_amended (w : BtlewrapWorker) (backend : Nat → Bool)
    (event : Option (Nat × List Nat)) (out : WriteOutcome)
    (h : w.write backend event = Except.ok out) :
    (out.warning.isSome ↔ 11 < out.trace.length) ∧
    (∀ a n, out.warning = some (a, n) → a = w.address ∧ n = out.trace.length) := by
  obtain ⟨hpos, hlen, htr, hw⟩ := write_ok_iff w backend event out h
  constructor
  · rw [hw]
    by_cases hgt : out.trace.length - 1 > 10
    · rw [if_pos hgt]
      simp only [Option.isSome_some, true_iff]
      omega
    · rw [if_neg hgt]
      simp only [Option.isSome_none, Bool.false_eq_true, false_iff]
      omega
  · intro a n han
    rw [hw] at han
    by_cases hgt : out.trace.length - 1 > 10
    · rw [if_pos hgt] at han
      simp only [Option.some.injEq, Prod.mk.injEq] at han
      exact ⟨han.1.symm, han.2.symm⟩
    · rw [if_neg hgt] at han; cases han

/-- Witness for the amended C4: a run consuming 12 attempts does log the
warning, whose reported count is 12. -/
theorem C4_witness : ∃ out,
    BtlewrapWorker.write
      { address := "AA", keepalive_interval := 2, attempts := 12,
        failure_count := 0, success_count := 0, loop_count := 0, empty_count := 0 }
      (fun _ => false) (some (7, [1])) = Except.ok out ∧
    (out.warning.isSome ↔ 11 < out.trace.length) ∧
    (∀ a n, out.warning = some (a, n) → a = "AA" ∧ n = out.trace.length) := by
  have h : BtlewrapWorker.write
      { address := "AA", keepalive_interval := 2, attempts := 12,
        failure_count := 0, success_count := 0, loop_count := 0, empty_count := 0 }
      (fun _ => false) (some (7, [1])) = Except.ok
      { worker := ⟨"AA", 2, 12, 12, 0, 0, 0⟩
        trace := List.replicate 12 { ok := false, written := [] }
        warning := some ("AA", 12) } := rfl
  exact ⟨_, h, C4_warning_threshold_amended _ _ _ _ h⟩

/-- Claim C5: `BtlewrapRGBWInteractor._write` with a dead worker logs an
error but still enqueues `(control_handle, _pack value)` to the inbox,
exactly as when the worker is alive; the function is total (returns,
never raises, and `queue.put` on the unbounded queue never blocks). -/
theorem C5_dead_worker_still_enqueues (value : Nat) (inbox : List (Nat × List Nat)) :
    (BtlewrapRGBWInteractor_write false inbox value).loggedError = true ∧
    (BtlewrapRGBWInteractor_write false inbox value).inbox =
      inbox ++ [(control_handle, _pack value)] ∧
    (BtlewrapRGBWInteractor_write false inbox value).inbox =
      (BtlewrapRGBWInteractor_write true inbox value).inbox ∧
    (BtlewrapRGBWInteractor_write true inbox value).loggedError = false :=
  ⟨rfl, rfl, rfl, rfl⟩

/-- Claim C6: `set_color(r, g, b)` passes
`0x5600000000f0aa + (r << 40) + (g << 32) + (b << 24)` to `_write`, and
subtracting the base then shifting by the offsets recovers r exactly and
g, b as the shifted byte; `set_white(w)` passes
`0x56000000000faa + (w << 16)` and reversing the offset recovers w
exactly; the byte fields at offsets 40/32/24 (resp. 16) never overlap
the base constants' set bits. -/
theorem C6_color_white_roundtrip (r g b wv : Nat)
    (hr : r ≤ 255) (hg : g ≤ 255) (hb : b ≤ 255) (hw : wv ≤ 255) :
    set_color_value [r, g, b] =
      0x5600000000f0aa + (r <<< 40) + (g <<< 32) + (b <<< 24) ∧
    (set_color_value [r, g, b] - rgb_base) >>> 40 = r ∧
    ((set_color_value [r, g, b] - rgb_base) >>> 32) % 256 = g ∧
    ((set_color_value [r, g, b] - rgb_base) >>> 24) % 256 = b ∧
    set_white_value wv = 0x56000000000faa + (wv <<< 16) ∧
    (set_white_value wv - white_base) >>> 16 = wv ∧
    ((0xff <<< 40) ||| (0xff <<< 32) ||| (0xff <<< 24)) &&& rgb_base = 0 ∧
    (0xff <<< 16) &&& white_base = 0 := by
  have hcv : set_color_value [r, g, b] =
      0x5600000000f0aa + (r * 2 ^ 40 + (g * 2 ^ 32 + (b * 2 ^ 24 + 0))) := by
    simp [set_color_value, rgb_base, rgb_offsets, Nat.shiftLeft_eq]
  have hwv : set_white_value wv = 0x56000000000faa + wv * 2 ^ 16 := by
    simp [set_white_value, white_base, white_offset, Nat.shiftLeft_eq]
  refine ⟨?_, ?_, ?_, ?_, ?_, ?_, by decide, by decide⟩ <;>
    simp only [hcv, hwv, rgb_base, white_base, Nat.shiftLeft_eq,
      Nat.shiftRight_eq_div_pow] <;>
    norm_num <;> omega

/-- Witness for C6 at r = 255, g = 1, b = 2, w = 254. -/
theorem C6_witness :
    set_color_value [255, 1, 2] =
      0x5600000000f0aa + (255 <<< 40) + (1 <<< 32) + (2 <<< 24) ∧
    (set_color_value [255, 1, 2] - rgb_base) >>> 40 = 255 ∧
    ((set_color_value [255, 1, 2] - rgb_base) >>> 32) % 256 = 1 ∧
    ((set_color_value [255, 1, 2] - rgb_base) >>> 24) % 256 = 2 ∧
    set_white_value 254 = 0x56000000000faa + (254 <<< 16) ∧
    (set_white_value 254 - white_base) >>> 16 = 254 ∧
    ((0xff <<< 40) ||| (0xff <<< 32) ||| (0xff <<< 24)) &&& rgb_base = 0 ∧
    (0xff <<< 16) &&& white_base = 0 :=
  C6_color_white_roundtrip 255 1 2 254 (by norm_num) (by norm_num)
    (by norm_num) (by norm_num)

/-! ## Helper lemmas about `toBytesBE` and `bit_length` -/

lemma toBytesBE_length (n v : Nat) : (toBytesBE n v).length = n := by
  induction n generalizing v with
  | zero => rfl
  | succ n ih => simp [toBytesBE, ih]

lemma toBytesBE_mem_lt (n v : Nat) : ∀ x ∈ toBytesBE n v, x < 256 := by
  induction n generalizing v with
  | zero => intro x hx; simp [toBytesBE] at hx
  | succ n ih =>
    intro x hx
    simp only [toBytesBE, List.mem_append, List.mem_singleton] at hx
    rcases hx with hx | hx
    · exact ih _ x hx
    · subst hx
      exact Nat.mod_lt _ (by norm_num)

/-- Big-endian decode of `toBytesBE n v` recovers `v % 256 ^ n`. -/
lemma toBytesBE_foldl (n : Nat) : ∀ v a : Nat,
    (toBytesBE n v).foldl (fun acc x => acc * 256 + x) a = a * 256 ^ n + v % 256 ^ n := by
  induction n with
  | zero => intro v a; simp [toBytesBE, Nat.mod_one]
  | succ n ih =>
    intro v a
    simp only [toBytesBE, List.foldl_append, List.foldl_cons, List.foldl_nil, ih]
    have h1 : (256 : Nat) ^ (n + 1) = 256 * 256 ^ n := by
      rw [pow_succ, Nat.mul_comm]
    rw [h1, Nat.mod_mul]
    ring

/-- The first (most significant) byte of `toBytesBE (n + 1) v`. -/
lemma toBytesBE_head? (n : Nat) : ∀ v : Nat,
    (toBytesBE (n + 1) v).head? = some (v / 256 ^ n % 256) := by
  induction n with
  | zero => intro v; simp [toBytesBE]
  | succ n ih =>
    intro v
    have h := ih (v / 256)
    show (toBytesBE (n + 1) (v / 256) ++ [v % 256]).head? = _
    rw [List.head?_append, h]
    show some (v / 256 / 256 ^ n % 256) = _
    rw [Nat.div_div_eq_div_mul]
    have h2 : 256 * 256 ^ n = 256 ^ (n + 1) := by
      rw [pow_succ, Nat.mul_comm]
    rw [h2]

/-- `bit_length` is characterised by the enclosing powers of two. -/
lemma bit_length_eq (v k : Nat) (h1 : 2 ^ k ≤ v) (h2 : v < 2 ^ (k + 1)) :
    bit_length v = k + 1 := by
  have hp : (0 : Nat) < 2 ^ k := Nat.pos_pow_of_pos k (by norm_num)
  have hv0 : v ≠ 0 := by omega
  unfold bit_length
  rw [if_neg hv0]
  have ha : k ≤ Nat.log2 v := (Nat.le_log2 hv0).2 h1
  have hb : Nat.log2 v < k + 1 := (Nat.log2_lt hv0).2 h2
  omega

/-- Claim C7: for every positive `value`, `_pack value` is the big-endian
byte sequence of `value` (each byte < 256, decoding recovers `value`)
whose length is exactly `ceil(bit_length value / 8)` and whose first byte
is nonzero (no leading zero byte, no sign byte). -/
theorem C7_pack_minimal_bytes (v : Nat) (hv : 0 < v) :
    (_pack v).length = (bit_length v + 7) / 8 ∧
    (∀ x ∈ _pack v, x < 256) ∧
    (_pack v).foldl (fun acc x => acc * 256 + x) 0 = v ∧
    ∃ c t, _pack v = c :: t ∧ c ≠ 0 := by
  have hv0 : v ≠ 0 := by omega
  have hlog_le : 2 ^ Nat.log2 v ≤ v := Nat.log2_self_le hv0
  have hlog_lt : v < 2 ^ (Nat.log2 v + 1) := Nat.lt_log2_self
  have hBdef : bit_length v = Nat.log2 v + 1 := by
    unfold bit_length; rw [if_neg hv0]
  have hn1 : 1 ≤ (bit_length v + 7) / 8 := by omega
  have h8n : bit_length v ≤ 8 * ((bit_length v + 7) / 8) := by omega
  have hlown : 8 * ((bit_length v + 7) / 8 - 1) ≤ Nat.log2 v := by omega
  have hvlt : v < 256 ^ ((bit_length v + 7) / 8) := by
    calc v < 2 ^ (Nat.log2 v + 1) := hlog_lt
    _ ≤ 2 ^ (8 * ((bit_length v + 7) / 8)) :=
      Nat.pow_le_pow_right (by norm_num) (by omega)
    _ = 256 ^ ((bit_length v + 7) / 8) := by
      rw [Nat.pow_mul]
  have hvge : 256 ^ ((bit_length v + 7) / 8 - 1) ≤ v := by
    calc (256 : Nat) ^ ((bit_length v + 7) / 8 - 1)
        = 2 ^ (8 * ((bit_length v + 7) / 8 - 1)) := by rw [Nat.pow_mul]
    _ ≤ 2 ^ Nat.log2 v := Nat.pow_le_pow_right (by norm_num) hlown
    _ ≤ v := hlog_le
  have hpack : _pack v = toBytesBE ((bit_length v + 7) / 8) v := rfl
  refine ⟨?_, ?_, ?_, ?_⟩
  · rw [hpack, toBytesBE_length]
  · rw [hpack]; exact toBytesBE_mem_lt _ v
  · rw [hpack, toBytesBE_foldl]
    simp [Nat.mod_eq_of_lt hvlt]
  · obtain ⟨m, hm⟩ : ∃ m, (bit_length v + 7) / 8 = m + 1 :=
      ⟨(bit_length v + 7) / 8 - 1, by omega⟩
    have hh := toBytesBE_head? m v
    rw [hpack, hm]
    cases hc : toBytesBE (m + 1) v with
    | nil => rw [hc] at hh; cases hh
    | cons c t =>
      rw [hc] at hh
      simp only [List.head?_cons, Option.some.injEq] at hh
      refine ⟨c, t, rfl, ?_⟩
      have hmp : (0 : Nat) < 256 ^ m := Nat.pos_pow_of_pos m (by norm_num)
      have h2 : v / 256 ^ m < 256 := by
        rw [Nat.div_lt_iff_lt_mul hmp]
        calc v < 256 ^ ((bit_length v + 7) / 8) := hvlt
        _ = 256 * 256 ^ m := by rw [hm, pow_succ, Nat.mul_comm]
      have h1 : 0 < v / 256 ^ m := by
        apply Nat.div_pos _ hmp
        calc (256 : Nat) ^ m = 256 ^ ((bit_length v + 7) / 8 - 1) := by
              rw [hm]; norm_num
        _ ≤ v := hvge
      subst hh
      rw [Nat.mod_eq_of_lt h2]
      omega

/-- Witness for C7: `_pack 0x1 = [0x01]`, and `_pack 0x5600000000f0aa` is
7 bytes, all < 256, decoding back to the value, with a nonzero first
byte. -/
theorem C7_witness :
    _pack 1 = [1] ∧
    (_pack 0x5600000000f0aa).length = 7 ∧
    (∀ x ∈ _pack 0x5600000000f0aa, x < 256) ∧
    (_pack 0x5600000000f0aa).foldl (fun acc x => acc * 256 + x) 0 = 0x5600000000f0aa ∧
    (∃ c t, _pack 0x5600000000f0aa = c :: t ∧ c ≠ 0) := by
  have h := C7_pack_minimal_bytes 0x5600000000f0aa (by norm_num)
  have hb : bit_length 0x5600000000f0aa = 55 :=
    bit_length_eq _ 54 (by norm_num) (by norm_num)
  have hb1 : bit_length 1 = 1 := bit_length_eq _ 0 (by norm_num) (by norm_num)
  refine ⟨?_, ?_, h.2.1, h.2.2.1, h.2.2.2⟩
  · show toBytesBE ((bit_length 1 + 7) / 8) 1 = [1]
    rw [hb1]
    rfl
  · rw [h.1, hb]

/-- Claim C8: `GATTToolRGBWInteractor._write` invokes the external tool
at most 5 times; it stops immediately after the first zero-exit
invocation (the first success after `k` failures yields `k + 1`
invocations, `k` logged failures, success); when all 5 invocations exit
nonzero it makes exactly 5 invocations, logs 5 failures, and returns
normally (the function is total — `CalledProcessError` never escapes). -/
theorem C8_gatttool_bounded_retry (tool : Nat → Bool) :
    (GATTToolRGBWInteractor_write tool).1 ≤ 5 ∧
    (∀ k, k < 5 → (∀ j, j < k → tool j = false) → tool k = true →
      GATTToolRGBWInteractor_write tool = (k + 1, k, true)) ∧
    ((∀ j, j < 5 → tool j = false) → GATTToolRGBWInteractor_write tool = (5, 5, false)) := by
  refine ⟨?_, ?_, ?_⟩
  · by_cases h0 : tool 0 <;> by_cases h1 : tool 1 <;> by_cases h2 : tool 2 <;>
      by_cases h3 : tool 3 <;> by_cases h4 : tool 4 <;>
      simp [GATTToolRGBWInteractor_write, gatttoolLoop, h0, h1, h2, h3, h4]
  · intro k hk hbefore htrue
    interval_cases k
    · simp [GATTToolRGBWInteractor_write, gatttoolLoop, htrue]
    · simp [GATTToolRGBWInteractor_write, gatttoolLoop, htrue,
        hbefore 0 (by norm_num)]
    · simp [GATTToolRGBWInteractor_write, gatttoolLoop, htrue,
        hbefore 0 (by norm_num), hbefore 1 (by norm_num)]
    · simp [GATTToolRGBWInteractor_write, gatttoolLoop, htrue,
        hbefore 0 (by norm_num), hbefore 1 (by norm_num), hbefore 2 (by norm_num)]
    · simp [GATTToolRGBWInteractor_write, gatttoolLoop, htrue,
        hbefore 0 (by norm_num), hbefore 1 (by norm_num), hbefore 2 (by norm_num),
        hbefore 3 (by norm_num)]
  · intro hfail
    simp [GATTToolRGBWInteractor_write, gatttoolLoop,
      hfail 0 (by norm_num), hfail 1 (by norm_num), hfail 2 (by norm_num),
      hfail 3 (by norm_num), hfail 4 (by norm_num)]

/-- Witness for C8: success on the third invocation stops there; total
failure consumes all 5 invocations. -/
theorem C8_witness :
    GATTToolRGBWInteractor_write (fun n => n == 2) = (3, 2, true) ∧
    GATTToolRGBWInteractor_write (fun _ => false) = (5, 5, false) :=
  ⟨(C8_gatttool_bounded_retry (fun n => n == 2)).2.1 2 (by norm_num) (by decide) rfl,
   (C8_gatttool_bounded_retry (fun _ => false)).2.2 fun _ _ => rfl⟩

/-- Claim C9: `_pack 0` is the empty byte sequence (bit_length 0 = 0, so
`math.ceil(0 / 8) = 0` bytes), hence writing the value 0 through the
persistent path enqueues a command with an empty payload. -/
theorem C9_pack_zero_empty (alive : Bool) (inbox : List (Nat × List Nat)) :
    _pack 0 = [] ∧
    (BtlewrapRGBWInteractor_write alive inbox 0).inbox = inbox ++ [(0x0007, [])] :=
  ⟨rfl, rfl⟩

/-- Claim C10: with `attempts = 0` the retry loop of
`BtlewrapWorker.write` runs zero iterations, so line 107's read of the
loop variable `i` raises an unhandled `NameError` (modelled as
`Except.error`); for every `attempts ≥ 1` the variable is bound and
`write` returns normally. -/
theorem C10_zero_attempts_unbound_loop_var (w : BtlewrapWorker) (backend : Nat → Bool)
    (event : Option (Nat × List Nat)) :
    (w.attempts = 0 →
      w.write backend event = Except.error "NameError: name i is not defined") ∧
    (1 ≤ w.attempts → ∃ out, w.write backend event = Except.ok out) := by
  constructor
  · intro h0
    simp [BtlewrapWorker.write, h0, writeLoop]
  · intro h1
    have hL := writeLoop_lastI backend event w.attempts 0
    rw [if_neg (by omega : ¬w.attempts = 0)] at hL
    exact ⟨_, write_eq_some w backend event _ hL⟩

/-- Witness for C10 at concrete workers with 0 and 1 attempts. -/
theorem C10_witness :
    (BtlewrapWorker.write ⟨"AA", 2, 0, 0, 0, 0, 0⟩ (fun _ => true) none =
      Except.error "NameError: name i is not defined") ∧
    ∃ out, BtlewrapWorker.write ⟨"AA", 2, 1, 0, 0, 0, 0⟩ (fun _ => true) none =
      Except.ok out :=
  ⟨(C10_zero_attempts_unbound_loop_var ⟨"AA", 2, 0, 0, 0, 0, 0⟩ (fun _ => true) none).1 rfl,
   (C10_zero_attempts_unbound_loop_var ⟨"AA", 2, 1, 0, 0, 0, 0⟩ (fun _ => true) none).2
     (by decide)⟩

end BleLed
